import Mathlib

/-!
Shallow embedding of the enrichment reconciliation engine of the
Plex-Music-Meta repository (src/plex_handler.py, src/spotify_handler.py,
src/database_handler.py, src/main.py), together with theorems settling the
specification claims about it.
-/

/-! ## Genre merge (plex_handler.update_artist_metadata, lines 297-331) -/

/-- Source: `album_genres = set(); for album in artist.albums(): if album.genres:
album_genres.update(album.genres)` — each album's genre list is added only
when it is truthy (non-empty). -/
def albumGenreSet (albums : List (List String)) : Finset String :=
  albums.foldl (fun acc g => if g.isEmpty then acc else acc ∪ g.toFinset) ∅

/-- Source: `all_genres = existing_genres.union(spotify_genres, album_genres)`. -/
def combinedGenres (existing spotify : Finset String)
    (albums : List (List String)) : Finset String :=
  existing ∪ spotify ∪ albumGenreSet albums

/-- The spec's formula for the combined set: existing ∪ catalog ∪ the union
of ALL associated albums' genre sets (no truthiness filter); stated for
comparison with `combinedGenres`, which is translated from the source. -/
def specCombinedGenres (existing spotify : Finset String)
    (albums : List (List String)) : Finset String :=
  existing ∪ spotify ∪ albums.foldl (fun acc g => acc ∪ g.toFinset) ∅

/-- Source: `if not existing_genres and all_genres: changes_needed = True
elif all_genres != existing_genres: changes_needed = True
else: (no change)`. -/
def genreChangeNeeded (existing allGenres : Finset String) : Bool :=
  if existing = ∅ ∧ ¬ allGenres = ∅ then true
  else if ¬ allGenres = existing then true
  else false

/-- Source: `genres_to_set = list(all_genres) if all_genres else ['Unknown']`.
Python's `list(set)` order is unspecified, so the written collection is
modelled as a multiset. -/
def genresToSet (allGenres : Finset String) : Multiset String :=
  if ¬ allGenres = ∅ then allGenres.val else {"Unknown"}

/-! ## Candidate images (plex_handler.update_artist_metadata, line 345) -/

structure SpotifyImage where
  url : String
  width : Nat
  height : Nat
deriving DecidableEq

/-- The key `lambda x: x['width'] * x['height']`. -/
def imageArea (img : SpotifyImage) : Nat := img.width * img.height

/-- Python's `max(iterable, key=...)`: scan left to right, replacing the
current best only on a strictly larger key, so the first maximal element
wins ties. -/
def pyMaxBy (key : SpotifyImage → Nat) (best : SpotifyImage) :
    List SpotifyImage → SpotifyImage
  | [] => best
  | x :: xs => pyMaxBy key (if key x > key best then x else best) xs

/-- Source: `largest_image = max(spotify_data['images'], key=lambda x: x['width'] *
x['height'])` — `none` on an empty candidate list (in the source a falsy
`images` list skips the attempt). -/
def largestImage? (imgs : List SpotifyImage) : Option SpotifyImage :=
  match imgs with
  | [] => none
  | x :: xs => some (pyMaxBy imageArea x xs)

/-! ## Artwork validator (plex_handler._validate_image, lines 109-146) -/

inductive ImgFormat where
  | jpeg
  | png
  | other (name : String)
deriving DecidableEq

/-- The outcome of `PIL.Image.open` on the input bytes: format and pixel
dimensions. An undecodable input is represented by `none` at the call
site. -/
structure DecodedImage where
  format : ImgFormat
  width : Nat
  height : Nat
deriving DecidableEq

/-- What `_validate_image` returns on acceptance: either the input bytes
unchanged (`original`), or the bytes of `image.convert('RGB').save(...,
format='JPEG', quality=q)` (`converted q`). -/
inductive ValidateResult where
  | original
  | converted (quality : Nat)
deriving DecidableEq

/-- Embeds `_validate_image(image_data)`: reject undecodable input; reject if
`width < 200 or height < 200`; re-encode to JPEG at quality 95 when the
format is not one of JPEG/PNG, and likewise when it is PNG; only a JPEG
input is returned as-is. -/
def validateImage : Option DecodedImage → Option ValidateResult
  | none => none
  | some img =>
    if img.width < 200 ∨ img.height < 200 then none
    else if ¬ (img.format = .jpeg ∨ img.format = .png) then
      some (.converted 95)
    else if img.format = .png then some (.converted 95)
    else some .original

/-- The encoding format of the bytes `_validate_image` returned, given the
input's decoded format: returning the input unchanged keeps its format,
re-encoding produces JPEG. -/
def resultFormat (inputFormat : ImgFormat) : ValidateResult → ImgFormat
  | .original => inputFormat
  | .converted _ => .jpeg

/-! ## update_artist_metadata (plex_handler, lines 286-388) -/

structure Album where
  title : String
  year : Option Nat
  genres : List String
  thumb : Option String
deriving DecidableEq

/-- Per-artist environment for one `update_artist_metadata` call: the
artist's and catalog's data together with the outcomes of the fallible
collaborator operations (genre write, thumb verification, poster
uploads). -/
structure UpdateEnv where
  artistGenres : List String
  spotifyGenres : List String
  spotifyImages : List SpotifyImage
  albums : List Album
  genreWriteOk : Bool
  thumbValid : Bool
  uploadOk : String → Bool

/-- The genre block of `update_artist_metadata` (its inner try/except):
returns (changes_needed, changes_made) contributed by genres. A failing
`addGenre`/`reload` raises after `changes_needed` is set, is caught by the
inner except, and leaves `changes_made` unset. -/
def genrePhase (env : UpdateEnv) : Bool × Bool :=
  let existing := env.artistGenres.toFinset
  let allGenres :=
    combinedGenres existing env.spotifyGenres.toFinset
      (env.albums.map (·.genres))
  if genreChangeNeeded existing allGenres then (true, env.genreWriteOk)
  else (false, false)

/-- Source: `x.year if x.year else 0`. -/
def albumYearKey (a : Album) : Nat := a.year.getD 0

/-- Stable insertion of an element into a list sorted descending by
`albumYearKey`: placed before the first element of smaller-or-equal key,
as Python's stable `sorted(..., reverse=True)` orders an earlier element
before later ones of equal key. -/
def insertByYearDesc (a : Album) : List Album → List Album
  | [] => [a]
  | b :: bs =>
    if albumYearKey b ≤ albumYearKey a then a :: b :: bs
    else b :: insertByYearDesc a bs

/-- Source: `sorted(albums, key=lambda x: x.year if x.year else 0, reverse=True)`
(stable, descending by year, unknown year sorting as 0). -/
def sortedAlbums : List Album → List Album
  | [] => []
  | a :: as' => insertByYearDesc a (sortedAlbums as')

/-- The album-art fallback loop: `for album in sorted_albums: if
album.thumb: if upload(album.thumbUrl): break` — true iff some attempted
album upload succeeds. -/
def tryAlbumArt (uploadOk : String → Bool) : List Album → Bool
  | [] => false
  | album :: rest =>
    match album.thumb with
    | some url => if uploadOk url then true else tryAlbumArt uploadOk rest
    | none => tryAlbumArt uploadOk rest

/-- The poster block of `update_artist_metadata` (lines 336-373): if the
installed thumb fails `_verify_thumb`, a change is needed; first the
largest-area Spotify candidate is uploaded, and only if that fails is the
album-art fallback tried. Returns (changes_needed, changes_made)
contributed by artwork. -/
def artworkPhase (env : UpdateEnv) : Bool × Bool :=
  if env.thumbValid then (false, false)
  else
    let fromSpotify :=
      match largestImage? env.spotifyImages with
      | some img => env.uploadOk img.url
      | none => false
    if fromSpotify then (true, true)
    else (true, tryAlbumArt env.uploadOk (sortedAlbums env.albums))

/-- Embeds `update_artist_metadata`'s return value: `changes_needed` /
`changes_made` are each the disjunction of the genre and artwork
contributions; `if not changes_needed: return True elif changes_made:
return True else: return False`. -/
def updateArtistMetadata (env : UpdateEnv) : Bool :=
  let gp := genrePhase env
  let ap := artworkPhase env
  let changesNeeded := gp.1 || ap.1
  let changesMade := gp.2 || ap.2
  if !changesNeeded then true
  else if changesMade then true
  else false

/-! ## Catalog matcher (spotify_handler.search_artist / get_artist_details) -/

structure SpotifyData where
  spotifyId : String
  name : String
  genres : List String
  images : List SpotifyImage
  popularity : Nat
deriving DecidableEq

structure SpotifyDetails where
  genres : List String
  images : List SpotifyImage
  popularity : Nat
deriving DecidableEq

/-- Source: `spotify_data.update(details)`: the details' genres, images and
popularity overwrite the search result's. -/
def mergeDetails (sd : SpotifyData) (d : SpotifyDetails) : SpotifyData :=
  { sd with genres := d.genres, images := d.images,
            popularity := d.popularity }

/-- One response of the external service to one issued request: a normal
response (carrying the parsed result, `none` for empty results), a
rate-limit error carrying a Retry-After duration, or any other error. -/
inductive ServiceResponse (α : Type) where
  | ok (result : Option α)
  | rateLimited (retryAfter : Nat)
  | failure
deriving DecidableEq

/-- Embeds `search_artist` run against a finite trace of service responses, one
consumed per issued request. On `ok` it returns the result; on `failure`
it logs and returns `none`; on a rate-limit error it waits the Retry-After
duration (`handle_rate_limit`) and recursively retries. The value is the
final result together with the list of waits performed and the number of
retries issued; `none` means the trace ran out while the code was still
retrying (the call has not terminated within the trace). -/
def searchArtist :
    List (ServiceResponse SpotifyData) →
      Option (Option SpotifyData × List Nat × Nat)
  | [] => none
  | .ok r :: _ => some (r, [], 0)
  | .rateLimited t :: rest =>
    (searchArtist rest).map (fun x => (x.1, t :: x.2.1, x.2.2 + 1))
  | .failure :: _ => some (none, [], 0)

/-- Embeds `get_artist_details` run against a finite trace of service responses;
identical retry structure to `searchArtist`. -/
def getArtistDetails :
    List (ServiceResponse SpotifyDetails) →
      Option (Option SpotifyDetails × List Nat × Nat)
  | [] => none
  | .ok r :: _ => some (r, [], 0)
  | .rateLimited t :: rest =>
    (getArtistDetails rest).map (fun x => (x.1, t :: x.2.1, x.2.2 + 1))
  | .failure :: _ => some (none, [], 0)

/-! ## Ledger (database_handler.py) -/

/-- One row of the `processed_artists` table (keyed by `artist_id`). -/
structure LedgerEntry where
  artistName : String
  spotifyId : Option String
  processedDate : Nat
  success : Bool
  errorMessage : Option String
deriving DecidableEq

abbrev Ledger := List (String × LedgerEntry)

/-- Source: `INSERT OR REPLACE INTO processed_artists ...` — upsert keyed by
artist id. -/
def markArtistProcessed (l : Ledger) (artistId artistName : String)
    (spotifyId : Option String) (success : Bool)
    (errorMessage : Option String) (now : Nat) : Ledger :=
  (artistId, ⟨artistName, spotifyId, now, success, errorMessage⟩) ::
    l.filter (fun p => ¬ p.1 = artistId)

/-- Embeds `is_artist_processed`: `SELECT success ... WHERE artist_id = ?;
return bool(result)` — true iff a row exists, regardless of its success
flag; a database error is caught and yields `False` (fail open). -/
def isArtistProcessed (readOk : Bool) (l : Ledger) (artistId : String) :
    Bool :=
  if readOk then (l.lookup artistId).isSome else false

/-! ## Batch orchestrator (main.py, lines 51-118) -/

structure Artist where
  ratingKey : String
  title : String
  genres : List String
deriving DecidableEq

/-- Embeds `plex_handler.needs_processing`: computes the thumb validity and the
existing genre set, logs them, and returns `True` unconditionally. -/
def needsProcessing (_artist : Artist) : Bool := true

/-- What a collaborator call did in `main`'s frame: returned a value, or
raised an exception with the given message. -/
inductive CallResult (α : Type) where
  | ok (a : α)
  | exc (e : String)
deriving DecidableEq

/-- The model's stand-in for the message of an `sqlite3.Error` re-raised by
`mark_artist_processed`. -/
def dbErrorMessage : String := "database error"

/-- Environment for one iteration of `main`'s per-artist loop: whether the
ledger read succeeds, the outcomes of the search / details / metadata
update calls, the success of each successive ledger write attempt for this
artist, and the wall-clock value recorded in the ledger row. -/
structure ArtistEnv where
  readOk : Bool
  search : CallResult (Option SpotifyData)
  details : CallResult (Option SpotifyDetails)
  update : CallResult Bool
  writeOk : Nat → Bool
  now : Nat

/-- Result of the `try:` body of one per-artist iteration: normal
completion with the new ledger and the number of catalog calls issued, or
an exception carrying also the number of catalog calls issued and the
number of ledger write attempts made before it was raised. -/
inductive BodyOut where
  | done (l : Ledger) (calls : Nat)
  | raised (e : String) (calls : Nat) (marks : Nat)
deriving DecidableEq

/-- The `try:` body of `main`'s per-artist loop: compute
`needs_processing`; skip if the artist is already in the ledger; (dead
branch) record success if no processing is needed; otherwise search, fetch
and merge details, update metadata, and record the outcome keyed by the
matched Spotify id. A `mark_artist_processed` failure raises. -/
def runBody (env : ArtistEnv) (l : Ledger) (a : Artist) : BodyOut :=
  let np := needsProcessing a
  if isArtistProcessed env.readOk l a.ratingKey then .done l 0
  else if !np then
    if env.writeOk 0 then
      .done (markArtistProcessed l a.ratingKey a.title none true none
        env.now) 0
    else .raised dbErrorMessage 0 1
  else
    match env.search with
    | .exc e => .raised e 1 0
    | .ok none =>
      if env.writeOk 0 then
        .done (markArtistProcessed l a.ratingKey a.title none false
          (some "Not found on Spotify") env.now) 1
      else .raised dbErrorMessage 1 1
    | .ok (some sd) =>
      match env.details with
      | .exc e => .raised e 2 0
      | .ok dOpt =>
        let sd' := match dOpt with
          | some d => mergeDetails sd d
          | none => sd
        match env.update with
        | .exc e => .raised e 2 0
        | .ok success =>
          if env.writeOk 0 then
            .done (markArtistProcessed l a.ratingKey a.title
              (some sd'.spotifyId) success none env.now) 2
          else .raised dbErrorMessage 2 1

/-- One full per-artist iteration: the body's exception is caught by the
`except Exception` handler, which records a success=false ledger entry
carrying the exception text; if that recovery write itself raises, the new
exception escapes the per-artist boundary. -/
def processArtist (env : ArtistEnv) (l : Ledger) (a : Artist) :
    CallResult (Ledger × Nat) :=
  match runBody env l a with
  | .done l' c => .ok (l', c)
  | .raised e c k =>
    if env.writeOk k then
      .ok (markArtistProcessed l a.ratingKey a.title none false (some e)
        env.now, c)
    else .exc dbErrorMessage

/-- Embeds `main`'s loop over the artist list (each artist paired with its
environment): an exception escaping a per-artist iteration aborts the run
(the outer handler logs and re-raises); otherwise the ledger is threaded
through and catalog calls are totalled. -/
def runMain : List (ArtistEnv × Artist) → Ledger →
    CallResult (Ledger × Nat)
  | [], l => .ok (l, 0)
  | (env, a) :: rest, l =>
    match processArtist env l a with
    | .exc e => .exc e
    | .ok (l', c) =>
      match runMain rest l' with
      | .exc e => .exc e
      | .ok (lf, cf) => .ok (lf, c + cf)

/-! ## Concrete sample inputs used by witnesses and counterexamples -/

/-- A concrete search result. -/
def sampleSpotifyData : SpotifyData :=
  ⟨"sp1", "Alice", ["rock"], [], 50⟩

/-- An artist whose metadata already matches the catalog and whose thumb
verifies, so that no change is needed. -/
def updateEnvNoChange : UpdateEnv :=
  ⟨["rock"], ["rock"], [], [], true, true, fun _ => false⟩

/-- A ledger holding one success=true and one success=false row. -/
def ledgerDone : Ledger :=
  [("k1", ⟨"Alice", some "sp1", 10, true, none⟩),
   ("k2", ⟨"Bob", none, 11, false, some "Not found on Spotify"⟩)]

/-- Per-artist environment for an unchanged second run: the ledger read
succeeds; the remaining fields are irrelevant once the skip fires. -/
def envSkip : ArtistEnv :=
  ⟨true, .ok none, .ok none, .ok false, fun _ => true, 12⟩

def artistAlice : Artist := ⟨"k1", "Alice", []⟩

def artistBob : Artist := ⟨"k2", "Bob", ["pop"]⟩

def artistCarol : Artist := ⟨"k3", "Carol", []⟩

def artistDave : Artist := ⟨"k4", "Dave", []⟩

def artistErin : Artist := ⟨"k9", "Erin", ["pop"]⟩

/-- The search call raises; every ledger write succeeds. -/
def envSearchRaises : ArtistEnv :=
  ⟨true, .exc "network down", .ok none, .ok false, fun _ => true, 20⟩

/-- The per-artist body runs to its ledger write, but every ledger write
attempt raises a database error. -/
def envLedgerWriteFails : ArtistEnv :=
  ⟨true, .ok (some sampleSpotifyData), .ok none, .ok true,
    fun _ => false, 30⟩

/-- The search completes with empty results; the details and update calls
are poisoned to demonstrate they are never consulted on this path. -/
def envNotFound : ArtistEnv :=
  ⟨true, .ok none, .exc "details must not be called",
    .exc "update must not be called", fun _ => true, 40⟩

/-! ## Helper lemmas -/

/-- The truthiness filter on album genre lists is harmless: skipping an
empty list is the same as adding its (empty) element set. -/
theorem albumGenreSet_foldl_eq (A : List (List String)) :
    ∀ acc : Finset String,
      A.foldl (fun acc g => if g.isEmpty then acc else acc ∪ g.toFinset)
          acc
        = A.foldl (fun acc g => acc ∪ g.toFinset) acc := by
  induction A with
  | nil => intro acc; rfl
  | cons g A ih =>
    intro acc
    simp only [List.foldl_cons]
    by_cases hg : g.isEmpty = true
    · rw [if_pos hg, ih]
      have hnil : g = [] := List.isEmpty_iff.mp hg
      subst hnil
      simp
    · rw [if_neg hg, ih]

/-- The combined set extends the existing set. -/
theorem subset_combinedGenres (E S : Finset String)
    (A : List (List String)) : E ⊆ combinedGenres E S A := by
  unfold combinedGenres
  exact Finset.subset_union_left.trans Finset.subset_union_left

/-- The combined set computed with the source's truthiness filter equals
the spec's plain union over all albums. -/
theorem combinedGenres_eq_spec (E S : Finset String)
    (A : List (List String)) :
    combinedGenres E S A = specCombinedGenres E S A := by
  unfold combinedGenres specCombinedGenres albumGenreSet
  rw [albumGenreSet_foldl_eq]

/-! ## Claim theorems -/

/-- Claim C5: for every artist and fetched catalog match, the combined
genre set is a superset of the existing genre set and equals
existing ∪ catalog genres ∪ the union of all associated albums' genre
sets, so no previously assigned genre is lost by the merge. -/
theorem genre_merge_monotonic (E S : Finset String)
    (A : List (List String)) :
    E ⊆ combinedGenres E S A ∧
      combinedGenres E S A = specCombinedGenres E S A :=
  ⟨subset_combinedGenres E S A, combinedGenres_eq_spec E S A⟩

/-- Claim C6: the genre-change-needed flag is true iff (the existing set
is empty and the combined set is non-empty) or the combined set differs
from the existing set. -/
theorem genre_change_flag_iff (E C : Finset String) :
    genreChangeNeeded E C = true ↔ ((E = ∅ ∧ C ≠ ∅) ∨ C ≠ E) := by
  unfold genreChangeNeeded
  by_cases h1 : E = ∅ ∧ ¬ C = ∅
  · simp [h1]
  · rw [if_neg h1]
    by_cases h2 : ¬ C = E
    · simp [h2]
    · simp only [if_neg h2]
      simp only [not_not] at h2
      simp [h1, h2]

/-- Claim C9, counterexample: with no existing genres and catalog genres
consisting of the single tag "Unknown", the genre-change-needed condition
holds and the genre collection actually written is exactly {"Unknown"} —
the claim's final clause ("the genre list actually written is never
['Unknown']") fails, even though the placeholder branch is not the one
that produced it. -/
theorem unknown_write_counterexample :
    genreChangeNeeded ∅ (combinedGenres ∅ {"Unknown"} []) = true ∧
    genresToSet (combinedGenres ∅ {"Unknown"} []) = {"Unknown"} := by
  decide

/-- Claim C9, amended: whenever the genre-change-needed condition holds,
the combined genre set is non-empty (an empty combined set would force an
empty existing set and equality, falsifying the condition), so the
`['Unknown']` placeholder branch of `genres_to_set` is never taken: the
written collection is always the combined set's own elements. -/
theorem unknown_placeholder_unreachable (E S : Finset String)
    (A : List (List String))
    (h : genreChangeNeeded E (combinedGenres E S A) = true) :
    ¬ combinedGenres E S A = ∅ ∧
      genresToSet (combinedGenres E S A) = (combinedGenres E S A).val := by
  have hne : ¬ combinedGenres E S A = ∅ := by
    intro hempty
    have hE : E = ∅ :=
      Finset.subset_empty.mp (hempty ▸ subset_combinedGenres E S A)
    rw [hempty, hE] at h
    simp [genreChangeNeeded] at h
  exact ⟨hne, by simp [genresToSet, hne]⟩

/-- Claim C9, witness for the amended theorem at a concrete input. -/
theorem unknown_placeholder_unreachable_witness :
    genreChangeNeeded ∅ (combinedGenres ∅ {"rock"} []) = true ∧
    (¬ combinedGenres ∅ {"rock"} [] = ∅ ∧
      genresToSet (combinedGenres ∅ {"rock"} [])
        = (combinedGenres ∅ {"rock"} []).val) :=
  ⟨by decide, unknown_placeholder_unreachable ∅ {"rock"} [] (by decide)⟩

/-- Claim C10: every accepted validator output is JPEG-encoded — the input
bytes are returned unchanged exactly when the decoded format is JPEG,
while a PNG (of accepted size) or any non-canonical format is re-encoded
to JPEG at quality 95. -/
theorem validator_output_jpeg (img : DecodedImage) (r : ValidateResult)
    (h : validateImage (some img) = some r) :
    resultFormat img.format r = .jpeg ∧
      (r = .original ↔ img.format = .jpeg) ∧
      (img.format = .png → r = .converted 95) ∧
      (∀ n, img.format = .other n → r = .converted 95) := by
  simp only [validateImage] at h
  by_cases hsize : img.width < 200 ∨ img.height < 200
  · rw [if_pos hsize] at h
    exact absurd h (by simp)
  · rw [if_neg hsize] at h
    by_cases hfmt : ¬ (img.format = .jpeg ∨ img.format = .png)
    · rw [if_pos hfmt] at h
      have hr : r = .converted 95 := by
        injection h with h'
        exact h'.symm
      subst hr
      push_neg at hfmt
      refine ⟨rfl, ?_, fun _ => rfl, fun _ _ => rfl⟩
      simp [hfmt.1]
    · rw [if_neg hfmt] at h
      push_neg at hfmt
      by_cases hpng : img.format = .png
      · rw [if_pos hpng] at h
        have hr : r = .converted 95 := by
          injection h with h'
          exact h'.symm
        subst hr
        refine ⟨rfl, ?_, fun _ => rfl, fun n hn => rfl⟩
        constructor
        · intro habs
          exact absurd habs (by simp)
        · intro hj
          rw [hj] at hpng
          exact absurd hpng (by simp)
      · rw [if_neg hpng] at h
        have hr : r = .original := by
          injection h with h'
          exact h'.symm
        subst hr
        rcases hfmt with hj | hp
        · refine ⟨by simp [hj, resultFormat], by simp [hj], ?_, ?_⟩
          · intro hp'
            exact absurd hp' hpng
          · intro n hn
            rw [hn] at hj
            exact absurd hj (by simp)
        · exact absurd hp hpng

/-- Claim C10, witness: a 300×300 PNG is accepted and re-encoded to JPEG
at quality 95 rather than returned as-is. -/
theorem validator_output_jpeg_witness :
    validateImage (some ⟨.png, 300, 300⟩) = some (.converted 95) ∧
    (resultFormat (DecodedImage.mk .png 300 300).format (.converted 95)
        = .jpeg ∧
      ((ValidateResult.converted 95) = .original ↔
        (DecodedImage.mk .png 300 300).format = .jpeg) ∧
      ((DecodedImage.mk .png 300 300).format = .png →
        (ValidateResult.converted 95) = .converted 95) ∧
      (∀ n, (DecodedImage.mk .png 300 300).format = .other n →
        (ValidateResult.converted 95) = .converted 95)) :=
  ⟨by decide,
    validator_output_jpeg ⟨.png, 300, 300⟩ (.converted 95) (by decide)⟩

/-- The running best of Python's `max` never decreases in key. -/
theorem key_le_pyMaxBy (key : SpotifyImage → Nat) :
    ∀ (xs : List SpotifyImage) (b : SpotifyImage),
      key b ≤ key (pyMaxBy key b xs) := by
  intro xs
  induction xs with
  | nil => intro b; exact le_refl _
  | cons x xs ih =>
    intro b
    show key b ≤ key (pyMaxBy key (if key x > key b then x else b) xs)
    refine le_trans ?_ (ih _)
    by_cases hx : key x > key b
    · rw [if_pos hx]; exact le_of_lt hx
    · rw [if_neg hx]

/-- Python's `max(xs, key=...)` splits its input into a strict-smaller
prefix, the returned element, and a no-larger suffix: it returns the first
element attaining the maximal key. -/
theorem pyMaxBy_first_max (key : SpotifyImage → Nat) :
    ∀ (xs : List SpotifyImage) (x : SpotifyImage),
      ∃ l₁ l₂, x :: xs = l₁ ++ pyMaxBy key x xs :: l₂ ∧
        (∀ y ∈ l₁, key y < key (pyMaxBy key x xs)) ∧
        (∀ y ∈ l₂, key y ≤ key (pyMaxBy key x xs)) := by
  intro xs
  induction xs with
  | nil =>
    intro x
    exact ⟨[], [], rfl, by simp, by simp⟩
  | cons y ys ih =>
    intro x
    by_cases hyx : key y > key x
    · have hstep : pyMaxBy key x (y :: ys) = pyMaxBy key y ys := by
        show pyMaxBy key (if key y > key x then y else x) ys = _
        rw [if_pos hyx]
      rw [hstep]
      obtain ⟨l₁, l₂, hdec, h₁, h₂⟩ := ih y
      refine ⟨x :: l₁, l₂, ?_, ?_, h₂⟩
      · rw [List.cons_append, ← hdec]
      · intro z hz
        rcases List.mem_cons.mp hz with hzx | hzl
        · subst hzx
          exact lt_of_lt_of_le hyx (key_le_pyMaxBy key ys y)
        · exact h₁ z hzl
    · have hstep : pyMaxBy key x (y :: ys) = pyMaxBy key x ys := by
        show pyMaxBy key (if key y > key x then y else x) ys = _
        rw [if_neg hyx]
      rw [hstep]
      obtain ⟨l₁, l₂, hdec, h₁, h₂⟩ := ih x
      have hyle : key y ≤ key x := le_of_not_lt hyx
      cases l₁ with
      | nil =>
        simp only [List.nil_append] at hdec
        have hx : x = pyMaxBy key x ys := (List.cons_eq_cons.mp hdec).1
        have hys : ys = l₂ := (List.cons_eq_cons.mp hdec).2
        refine ⟨[], y :: l₂, ?_, by simp, ?_⟩
        · rw [List.nil_append, ← hx, ← hys]
        · intro z hz
          rcases List.mem_cons.mp hz with hzy | hzl
          · subst hzy
            exact le_trans hyle (key_le_pyMaxBy key ys x)
          · exact h₂ z hzl
      | cons a l₁' =>
        simp only [List.cons_append] at hdec
        have hxa : x = a := (List.cons_eq_cons.mp hdec).1
        have hys : ys = l₁' ++ pyMaxBy key x ys :: l₂ :=
          (List.cons_eq_cons.mp hdec).2
        have hxlt : key x < key (pyMaxBy key x ys) := by
          have := h₁ a (List.mem_cons_self a l₁')
          rwa [← hxa] at this
        refine ⟨x :: y :: l₁', l₂, ?_, ?_, h₂⟩
        · rw [List.cons_append, List.cons_append, ← hys]
        · intro z hz
          rcases List.mem_cons.mp hz with hzx | hz'
          · subst hzx; exact hxlt
          · rcases List.mem_cons.mp hz' with hzy | hzl
            · subst hzy; exact lt_of_le_of_lt hyle hxlt
            · refine h₁ z ?_
              rw [← hxa] at hdec
              exact List.mem_cons_of_mem a hzl

/-- Claim C1, counterexample: on the spec's candidate list
(100×100), (300×200), (250×250) the source's selector `max(images,
key=width*height)` returns the (250×250) candidate (area 62500), not the
(300×200) one the claim names (area 60000). -/
theorem largest_image_spec_example_counterexample :
    largestImage? [⟨"a", 100, 100⟩, ⟨"b", 300, 200⟩, ⟨"c", 250, 250⟩]
        = some ⟨"c", 250, 250⟩ ∧
    ¬ largestImage? [⟨"a", 100, 100⟩, ⟨"b", 300, 200⟩, ⟨"c", 250, 250⟩]
        = some ⟨"b", 300, 200⟩ := by
  decide

/-- Claim C1, amended: on the spec's example list the selector picks the
(250×250) candidate, whose area 62500 is the maximum; in general, for
every non-empty candidate list the selector returns the first candidate
attaining the strictly largest width×height (every earlier candidate has
strictly smaller area, every later one has no larger area). -/
theorem largest_image_picks_first_max (x : SpotifyImage)
    (xs : List SpotifyImage) :
    largestImage? (x :: xs) = some (pyMaxBy imageArea x xs) ∧
    ∃ l₁ l₂, x :: xs = l₁ ++ pyMaxBy imageArea x xs :: l₂ ∧
      (∀ y ∈ l₁, imageArea y < imageArea (pyMaxBy imageArea x xs)) ∧
      (∀ y ∈ l₂, imageArea y ≤ imageArea (pyMaxBy imageArea x xs)) :=
  ⟨rfl, pyMaxBy_first_max imageArea xs x⟩

/-- Claim C2, counterexample: a trace of two rate-limit signals followed
by a normal response makes `search_artist` issue two retries for one
logical call — the retry chain is not capped at one retry per call. -/
theorem rate_limit_two_retries_counterexample :
    searchArtist
        [.rateLimited 3, .rateLimited 5, .ok (some sampleSpotifyData)]
      = some (some sampleSpotifyData, [3, 5], 2) ∧
    ¬ (2 : Nat) ≤ 1 := by
  decide

/-- Claim C2, amended: on every rate-limit signal the Matcher waits the
signalled Retry-After duration and then retries the same logical call;
one retry is issued per signal without any cap, so n consecutive
rate-limit responses yield exactly n retries with the corresponding
waits (for both `search_artist` and `get_artist_details`), and a trace
consisting solely of rate-limit responses never completes the call. -/
theorem rate_limit_retry_per_signal (n t : Nat) (r : Option SpotifyData)
    (r' : Option SpotifyDetails) :
    searchArtist (List.replicate n (.rateLimited t) ++ [.ok r])
        = some (r, List.replicate n t, n) ∧
    searchArtist (List.replicate n (.rateLimited t)) = none ∧
    getArtistDetails (List.replicate n (.rateLimited t) ++ [.ok r'])
        = some (r', List.replicate n t, n) ∧
    getArtistDetails (List.replicate n (.rateLimited t)) = none := by
  induction n with
  | zero => simp [searchArtist, getArtistDetails]
  | succ n ih =>
    obtain ⟨ih1, ih2, ih3, ih4⟩ := ih
    refine ⟨?_, ?_, ?_, ?_⟩
    · rw [List.replicate_succ, List.cons_append]
      simp only [searchArtist]
      rw [ih1, List.replicate_succ]
      rfl
    · rw [List.replicate_succ]
      simp only [searchArtist]
      rw [ih2]
      rfl
    · rw [List.replicate_succ, List.cons_append]
      simp only [getArtistDetails]
      rw [ih3, List.replicate_succ]
      rfl
    · rw [List.replicate_succ]
      simp only [getArtistDetails]
      rw [ih4]
      rfl

/-- Claim C7: for an artist processed with a catalog match, the final
success determination of `update_artist_metadata` is: no change needed →
success; at least one change needed and at least one needed change made →
success; changes needed and none made → failure. -/
theorem final_status_determination (env : UpdateEnv) :
    ((genrePhase env).1 = false ∧ (artworkPhase env).1 = false →
      updateArtistMetadata env = true) ∧
    (((genrePhase env).1 = true ∨ (artworkPhase env).1 = true) →
      ((genrePhase env).2 = true ∨ (artworkPhase env).2 = true) →
      updateArtistMetadata env = true) ∧
    (((genrePhase env).1 = true ∨ (artworkPhase env).1 = true) →
      (genrePhase env).2 = false ∧ (artworkPhase env).2 = false →
      updateArtistMetadata env = false) := by
  unfold updateArtistMetadata
  cases hgn : (genrePhase env).1 <;> cases hgm : (genrePhase env).2 <;>
    cases han : (artworkPhase env).1 <;> cases ham : (artworkPhase env).2 <;>
      simp [hgn, hgm, han, ham]

/-- Claim C7, witness: an artist whose genres already match the catalog
and whose thumb verifies needs no change and is reported as success. -/
theorem final_status_determination_witness :
    ((genrePhase updateEnvNoChange).1 = false ∧
      (artworkPhase updateEnvNoChange).1 = false) ∧
    updateArtistMetadata updateEnvNoChange = true :=
  ⟨by decide, (final_status_determination updateEnvNoChange).1 (by decide)⟩

/-- Claim C3, counterexample: when the ledger write raises both inside the
per-artist body and again inside the `except` handler's recovery write,
the database exception escapes the per-artist boundary and aborts the
whole run — contradicting "no such exception escapes per-artist
processing". -/
theorem recovery_write_failure_escapes :
    processArtist envLedgerWriteFails [] artistDave = .exc dbErrorMessage ∧
    runMain [(envLedgerWriteFails, artistDave)] [] = .exc dbErrorMessage := by
  decide

/-- Claim C3, amended: every exception raised in the per-artist body —
including a failure of the body's own ledger write — is caught at the
per-artist boundary and converted into a ledger entry with success=false
carrying the exception text, provided the handler's recovery ledger write
itself succeeds; if that recovery write raises, the new exception escapes
and aborts the run. -/
theorem artist_boundary_converts_exceptions (env : ArtistEnv) (l : Ledger)
    (a : Artist) (e : String) (c k : Nat)
    (hbody : runBody env l a = .raised e c k)
    (hwrite : env.writeOk k = true) :
    processArtist env l a =
      .ok (markArtistProcessed l a.ratingKey a.title none false (some e)
        env.now, c) := by
  unfold processArtist
  rw [hbody]
  simp [hwrite]

/-- Claim C3, witness: a raising search call is converted into a
success=false ledger entry when the recovery write succeeds. -/
theorem artist_boundary_converts_exceptions_witness :
    runBody envSearchRaises [] artistCarol = .raised "network down" 1 0 ∧
    processArtist envSearchRaises [] artistCarol =
      .ok (markArtistProcessed [] artistCarol.ratingKey artistCarol.title
        none false (some "network down") envSearchRaises.now, 1) :=
  ⟨by decide,
    artist_boundary_converts_exceptions envSearchRaises [] artistCarol
      "network down" 1 0 (by decide) rfl⟩

/-- Claim C4: a run over artists that all already have a ledger entry
(successful or failed) issues zero catalog calls and leaves the ledger
unchanged — each per-artist iteration skips before any catalog call. -/
theorem second_run_no_catalog_calls (ps : List (ArtistEnv × Artist))
    (l : Ledger)
    (hread : ∀ p ∈ ps, p.1.readOk = true)
    (hdone : ∀ p ∈ ps, (l.lookup p.2.ratingKey).isSome = true) :
    runMain ps l = .ok (l, 0) := by
  induction ps with
  | nil => rfl
  | cons p rest ih =>
    obtain ⟨env, a⟩ := p
    have h1 : env.readOk = true := hread (env, a) (List.mem_cons_self _ _)
    have h2 : (l.lookup a.ratingKey).isSome = true :=
      hdone (env, a) (List.mem_cons_self _ _)
    have hb : runBody env l a = .done l 0 := by
      simp [runBody, isArtistProcessed, h1, h2]
    have hskip : processArtist env l a = .ok (l, 0) := by
      simp [processArtist, hb]
    have hrest : runMain rest l = .ok (l, 0) :=
      ih (fun p hp => hread p (List.mem_cons_of_mem _ hp))
        (fun p hp => hdone p (List.mem_cons_of_mem _ hp))
    simp only [runMain]
    rw [hskip]
    simp [hrest]

/-- Claim C4, witness: a second run over two already-ledgered artists (one
recorded success=true, one success=false) issues zero catalog calls. -/
theorem second_run_no_catalog_calls_witness :
    (∀ p ∈ [(envSkip, artistAlice), (envSkip, artistBob)],
      p.1.readOk = true) ∧
    runMain [(envSkip, artistAlice), (envSkip, artistBob)] ledgerDone
      = .ok (ledgerDone, 0) :=
  ⟨by decide,
    second_run_no_catalog_calls _ ledgerDone (by decide) (by decide)⟩

/-- The not-found path of the per-artist body: search completed with no
result, so the iteration records success=false with the source's error
string after exactly one catalog call. -/
theorem processArtist_not_found (env : ArtistEnv) (l : Ledger) (a : Artist)
    (hread : env.readOk = true) (hnew : l.lookup a.ratingKey = none)
    (hsearch : env.search = .ok none) (hwrite : env.writeOk 0 = true) :
    processArtist env l a =
      .ok (markArtistProcessed l a.ratingKey a.title none false
        (some "Not found on Spotify") env.now, 1) := by
  have hb : runBody env l a =
      .done (markArtistProcessed l a.ratingKey a.title none false
        (some "Not found on Spotify") env.now) 1 := by
    simp [runBody, isArtistProcessed, needsProcessing, hread, hnew,
      hsearch, hwrite]
  simp [processArtist, hb]

/-- Claim C8, counterexample: on a failed search the recorded error string
is "Not found on Spotify", not the "Not found in catalog" stated by the
claim. -/
theorem not_found_message_counterexample :
    processArtist envNotFound [] artistErin =
      .ok ([("k9", ⟨"Erin", none, 40, false,
        some "Not found on Spotify"⟩)], 1) ∧
    ¬ (LedgerEntry.mk "Erin" none 40 false
        (some "Not found on Spotify")).errorMessage
      = some "Not found in catalog" := by
  decide

/-- Claim C8, amended: for every artist whose catalog search yields no
match, the ledger entry written (when the write succeeds) has
success=false and the error message "Not found on Spotify", after exactly
one catalog call; the details fetch and the genre merge/equality
evaluation of `update_artist_metadata` are skipped entirely — the result
is the same for every outcome of the details and update calls. -/
theorem not_found_records_failure (env : ArtistEnv) (l : Ledger)
    (a : Artist)
    (hread : env.readOk = true) (hnew : l.lookup a.ratingKey = none)
    (hsearch : env.search = .ok none) (hwrite : env.writeOk 0 = true) :
    processArtist env l a =
      .ok (markArtistProcessed l a.ratingKey a.title none false
        (some "Not found on Spotify") env.now, 1) ∧
    ∀ d u, processArtist { env with details := d, update := u } l a =
      .ok (markArtistProcessed l a.ratingKey a.title none false
        (some "Not found on Spotify") env.now, 1) :=
  ⟨processArtist_not_found env l a hread hnew hsearch hwrite,
   fun _ _ => processArtist_not_found _ l a hread hnew hsearch hwrite⟩

/-- Claim C8, witness: a concrete not-found search records success=false
with the source's error string even though the details and update calls
are poisoned. -/
theorem not_found_records_failure_witness :
    envNotFound.search = .ok none ∧
    processArtist envNotFound [] artistErin =
      .ok (markArtistProcessed [] artistErin.ratingKey artistErin.title
        none false (some "Not found on Spotify") envNotFound.now, 1) :=
  ⟨rfl,
    (not_found_records_failure envNotFound [] artistErin rfl rfl rfl
      rfl).1⟩
